import Mathlib

/-!
Shallow embedding of the Library-Management-System repository
(`app/models.py`, `app/routes.py`): books, users and borrowed-book
(loan) records, together with the five HTTP handlers that the claims
are about (`add_book`, `add_user`, `borrow_book`, `return_book`,
`view_avaiable_books`).  The relational store is modelled as explicit
state (`LibraryState`); each handler is a pure function from a state
and a parsed request to the successor state and the HTTP response.
Python integers are unbounded, so `total_copies` and
`publication_year` are `Int`; surrogate ids are `Nat` (SQLite
autoincrement, starting at 1).
-/

namespace LMS

/-- A row of the `books` table (`models.py`, class `Book`). -/
structure Book where
  id : Nat
  isbn : String
  title : String
  author : String
  publication_year : Int
  status : String
  total_copies : Int
deriving Repr, DecidableEq

/-- A row of the `users` table (`models.py`, class `User`). -/
structure User where
  id : Nat
  name : String
  email : String
deriving Repr, DecidableEq

/-- A row of the `borrowed_books` join table (`models.py`, class
`BorrowedBooks`).  The composite primary key is `(user_id, book_id)`;
the `borrowed_at` / `return_by` timestamps are read by no handler and
are omitted from the model. -/
structure BorrowedBooks where
  user_id : Nat
  book_id : Nat
deriving Repr, DecidableEq

/-- The persisted store: the three tables plus the autoincrement
counters for the two surrogate primary keys. -/
structure LibraryState where
  books : List Book
  users : List User
  borrowed_books : List BorrowedBooks
  next_book_id : Nat
  next_user_id : Nat
deriving Repr, DecidableEq

/-- The store right after `db.create_all()` on a fresh database:
empty tables, autoincrement counters at 1. -/
def emptyState : LibraryState :=
  { books := [], users := [], borrowed_books := [], next_book_id := 1, next_user_id := 1 }

/-- A `jsonify({"message": ...}), code` response of the borrow/return
handlers. -/
structure Response where
  message : String
  status : Nat
deriving Repr, DecidableEq

/-- Result of a create handler: either the serialized entity with its
HTTP code (`jsonify(x.to_dict()), 201`) or an error message with its
code. -/
inductive ApiResult (α : Type) where
  | ok (val : α) (code : Nat)
  | err (message : String) (code : Nat)
deriving Repr, DecidableEq

/-- `true` on the error constructor. -/
def ApiResult.isErr {α : Type} : ApiResult α → Bool
  | .ok _ _ => false
  | .err _ _ => true

/-- `Book.validate_isbn` (`models.py` lines 35-41).  `none` models a
JSON `null` / absent `isbn` field. -/
def Book.validate_isbn (isbn : Option String) : Bool × String :=
  match isbn with
  | none => (false, "ISBN must not be empty.")
  | some s => if s.length ≠ 13 then (false, "ISBN must be 13 characters long.") else (true, "")

/-- `Book.validate_title` (`models.py` lines 43-51).  Python's
`if not title` on a string is the empty-string test. -/
def Book.validate_title (title : Option String) : Bool × String :=
  match title with
  | none => (false, "Title must not be empty.")
  | some t =>
    if t = "" then (false, "Title must not be empty.")
    else if t.length > 255 then (false, "Title is too long.")
    else (true, "")

/-- `Book.validate_publication_year` (`models.py` lines 53-59).  The
model types the field as an optional integer, so the
`isinstance(..., int)` branch of the source is carried by the type;
a JSON value of another type is rejected by that same branch. -/
def Book.validate_publication_year (y : Option Int) : Bool × String :=
  match y with
  | none => (false, "Publication year must not be empty.")
  | some n =>
    if n < 1000 ∨ n > 2100 then
      (false, "Publication year must be a valid number between 1000 and 2100.")
    else (true, "")

/-- `Book.query.filter_by(isbn=x).first()`: first stored book whose
(unique-in-the-DB) `isbn` column equals `x`; a `None` comparison value
matches no row of the non-null column. -/
def findBookByIsbn (s : LibraryState) (isbn : Option String) : Option Book :=
  match isbn with
  | none => none
  | some i => s.books.find? (fun b => b.isbn == i)

/-- `User.query.filter_by(id=x).first()` / `db.session.get(User, x)`:
primary-key lookup. -/
def findUserById (s : LibraryState) (uid : Option Nat) : Option User :=
  match uid with
  | none => none
  | some i => s.users.find? (fun u => u.id == i)

/-- `db.session.query(BorrowedBooks).filter_by(book_id=bid).count()`. -/
def borrowedCount (s : LibraryState) (bid : Nat) : Nat :=
  s.borrowed_books.countP (fun l => l.book_id == bid)

/-- `book in user.borrowed_books`: a `borrowed_books` row for the
(user, book) pair exists. -/
def hasLoan (s : LibraryState) (uid bid : Nat) : Bool :=
  s.borrowed_books.any (fun l => l.user_id == uid && l.book_id == bid)

/-- ORM attribute assignment on the fetched book, seen by the store as
an update of the row whose primary key is `bid`. -/
def updateBook (books : List Book) (bid : Nat) (f : Book → Book) : List Book :=
  books.map (fun b => if b.id == bid then f b else b)

/-- Parsed JSON body of `POST /books`.  The three validated fields are
optional (their validators handle `null`/absent); `author` is read
with `data['author']` (`routes.py` line 48), so the model takes the
present string value — its content is never validated.  `status` and
`total_copies` default via `data.get` when absent. -/
structure AddBookRequest where
  isbn : Option String
  title : Option String
  author : String
  publication_year : Option Int
  status : Option String
  total_copies : Option Int
deriving Repr, DecidableEq

/-- `add_book` (`routes.py` lines 11-57): the three validators in
order, then the duplicate-ISBN check, then creation.  The `getD`
defaults on `isbn`/`title`/`publication_year` are dead code: the
validators guarantee the fields are present on the creation path. -/
def add_book (s : LibraryState) (req : AddBookRequest) : LibraryState × ApiResult Book :=
  let v1 := Book.validate_isbn req.isbn
  if !v1.1 then (s, .err v1.2 400) else
  let v2 := Book.validate_title req.title
  if !v2.1 then (s, .err v2.2 400) else
  let v3 := Book.validate_publication_year req.publication_year
  if !v3.1 then (s, .err v3.2 400) else
  match findBookByIsbn s req.isbn with
  | some _ => (s, .err "Book with this ISBN already exists" 409)
  | none =>
    let new_book : Book :=
      { id := s.next_book_id
        isbn := req.isbn.getD ""
        title := req.title.getD ""
        author := req.author
        publication_year := req.publication_year.getD 0
        status := req.status.getD "available"
        total_copies := req.total_copies.getD 1 }
    ({ s with books := s.books ++ [new_book], next_book_id := s.next_book_id + 1 },
     .ok new_book 201)

/-- Parsed JSON body of `POST /users`: `none` models an absent key
(the handler only tests key presence). -/
structure AddUserRequest where
  name : Option String
  email : Option String
deriving Repr, DecidableEq

/-- `add_user` (`routes.py` lines 61-85). -/
def add_user (s : LibraryState) (req : AddUserRequest) : LibraryState × ApiResult User :=
  match req.name, req.email with
  | some name, some email =>
    if s.users.any (fun u => u.email == email) then
      (s, .err "User with this email already exists" 409)
    else
      let new_user : User := { id := s.next_user_id, name := name, email := email }
      ({ s with users := s.users ++ [new_user], next_user_id := s.next_user_id + 1 },
       .ok new_user 201)
  | _, _ => (s, .err "Name and email are required fields" 400)

/-- `borrow_book` (`routes.py` lines 88-128): user lookup, book
lookup, per-pair loan guard, live-count capacity check (which on
failure persists `status = "unavailable"` before answering 409), then
the success path. -/
def borrow_book (s : LibraryState) (isbn : Option String) (user_id : Option Nat) :
    LibraryState × Response :=
  match findUserById s user_id with
  | none => (s, ⟨"User not found", 404⟩)
  | some user =>
    match findBookByIsbn s isbn with
    | none => (s, ⟨"Book not found", 404⟩)
    | some book =>
      if hasLoan s user.id book.id then
        (s, ⟨"Book is already borrowed by user.", 409⟩)
      else
        let borrowed_count := borrowedCount s book.id
        if (borrowed_count : Int) ≥ book.total_copies then
          let books1 := updateBook s.books book.id (fun b => { b with status := "unavailable" })
          ({ s with books := books1 }, ⟨"The book is not available.", 409⟩)
        else
          let newLoan : BorrowedBooks := { user_id := user.id, book_id := book.id }
          let s1 := { s with borrowed_books := s.borrowed_books ++ [newLoan] }
          let dec := fun (b : Book) =>
            let b1 := { b with total_copies := b.total_copies - 1 }
            if b1.total_copies == (0 : Int) then { b1 with status := "unavailable" } else b1
          let s2 := { s1 with books := updateBook s1.books book.id dec }
          (s2, ⟨"Book successfully borrowed.", 200⟩)

/-- `return_book` (`routes.py` lines 131-172): book lookup, user
lookup, loan lookup (400 when absent), then deletion of the fetched
loan row, counter increment and conditional status reset. -/
def return_book (s : LibraryState) (isbn : Option String) (user_id : Option Nat) :
    LibraryState × Response :=
  match findBookByIsbn s isbn with
  | none => (s, ⟨"Book not found.", 404⟩)
  | some book =>
    match findUserById s user_id with
    | none => (s, ⟨"User not found.", 404⟩)
    | some user =>
      match s.borrowed_books.find? (fun l => l.book_id == book.id && l.user_id == user.id) with
      | none => (s, ⟨"Book is not currently borrowed.", 400⟩)
      | some _ =>
        let loans1 := s.borrowed_books.eraseP
          (fun l => l.book_id == book.id && l.user_id == user.id)
        let s1 := { s with borrowed_books := loans1 }
        let inc := fun (b : Book) =>
          let b1 := { b with total_copies := b.total_copies + 1 }
          if b1.status == "unavailable" then { b1 with status := "available" } else b1
        let s2 := { s1 with books := updateBook s1.books book.id inc }
        (s2, ⟨"Book successfully returned.", 200⟩)

/-- `view_avaiable_books` (`routes.py` lines 175-199; the misspelled
name is the source's).  With `status=available` the left-join /
group-by / having query keeps exactly the books whose live loan count
is below `total_copies` (primary keys are unique, so each group is one
book); any other query string returns the whole table. -/
def view_avaiable_books (s : LibraryState) (status : Option String) : List Book × Nat :=
  if status == some "available" then
    (s.books.filter (fun b => (borrowedCount s b.id : Int) < b.total_copies), 200)
  else
    (s.books, 200)

/-- States reachable from the fresh store by any sequence of the four
mutating handlers, each with an arbitrary request (the successor state
is taken whether the handler succeeds or fails). -/
inductive Reachable : LibraryState → Prop where
  | init : Reachable emptyState
  | add_book (s : LibraryState) (req : AddBookRequest) :
      Reachable s → Reachable (add_book s req).1
  | add_user (s : LibraryState) (req : AddUserRequest) :
      Reachable s → Reachable (add_user s req).1
  | borrow (s : LibraryState) (isbn : Option String) (uid : Option Nat) :
      Reachable s → Reachable (borrow_book s isbn uid).1
  | ret (s : LibraryState) (isbn : Option String) (uid : Option Nat) :
      Reachable s → Reachable (return_book s isbn uid).1

/-- Reachability restricted to runs in which every `POST /books`
request leaves `status` and `total_copies` at their defaults
(`"available"` and 1), explicitly or by omission. -/
inductive ReachableUnit : LibraryState → Prop where
  | init : ReachableUnit emptyState
  | add_book (s : LibraryState) (req : AddBookRequest) :
      ReachableUnit s →
      (req.total_copies = none ∨ req.total_copies = some 1) →
      (req.status = none ∨ req.status = some "available") →
      ReachableUnit (add_book s req).1
  | add_user (s : LibraryState) (req : AddUserRequest) :
      ReachableUnit s → ReachableUnit (add_user s req).1
  | borrow (s : LibraryState) (isbn : Option String) (uid : Option Nat) :
      ReachableUnit s → ReachableUnit (borrow_book s isbn uid).1
  | ret (s : LibraryState) (isbn : Option String) (uid : Option Nat) :
      ReachableUnit s → ReachableUnit (return_book s isbn uid).1

/-! ### List helper lemmas -/

/-- `find?` commutes with a map that does not disturb the predicate. -/
theorem find?_map_pred {α : Type} (p : α → Bool) (g : α → α)
    (h : ∀ a, p (g a) = p a) :
    ∀ l : List α, (l.map g).find? p = (l.find? p).map g := by
  intro l
  induction l with
  | nil => rfl
  | cons a t ih =>
    by_cases hpa : p a = true
    · simp [List.find?_cons, h a, hpa]
    · simp only [Bool.not_eq_true] at hpa
      simp [List.find?_cons, h a, hpa, ih]

/-- If the unique `q`-element of a list is removed by `eraseP p`
(every `p`-element is a `q`-element and `p` finds something), no
`q`-element remains. -/
theorem countP_eraseP_unique {α : Type} (p q : α → Bool)
    (hpq : ∀ a, p a = true → q a = true) :
    ∀ l : List α, l.countP q = 1 → (l.find? p).isSome → (l.eraseP p).countP q = 0 := by
  intro l
  induction l with
  | nil => intro _ hf; simp [List.find?] at hf
  | cons a t ih =>
    intro h1 hf
    by_cases hpa : p a = true
    · rw [List.eraseP_cons_of_pos hpa]
      have hqa := hpq a hpa
      rw [List.countP_cons, hqa] at h1
      simp at h1
      simpa using h1
    · simp only [Bool.not_eq_true] at hpa
      rw [List.eraseP_cons_of_neg (by simp [hpa])]
      rw [List.find?_cons, hpa] at hf
      simp only [Bool.false_eq_true, if_false] at hf
      rw [List.countP_cons] at h1 ⊢
      by_cases hqa : q a = true
      · exfalso
        rw [hqa, if_pos rfl] at h1
        obtain ⟨x, hx, hpx⟩ := List.find?_isSome.mp hf
        have : t.countP q ≥ 1 := by
          have := List.countP_pos_iff (p := q) (l := t)
          exact this.mpr ⟨x, hx, hpq x hpx⟩
        omega
      · simp only [Bool.not_eq_true] at hqa
        rw [hqa] at h1 ⊢
        simp only [Bool.false_eq_true, if_false, Nat.add_zero] at h1 ⊢
        exact ih h1 hf

/-- `eraseP p` does not change the count of a predicate disjoint
from `p`. -/
theorem countP_eraseP_disjoint {α : Type} (p q : α → Bool)
    (hpq : ∀ a, p a = true → q a = false) :
    ∀ l : List α, (l.eraseP p).countP q = l.countP q := by
  intro l
  induction l with
  | nil => rfl
  | cons a t ih =>
    by_cases hpa : p a = true
    · rw [List.eraseP_cons_of_pos hpa, List.countP_cons, hpq a hpa]
      simp
    · simp only [Bool.not_eq_true] at hpa
      rw [List.eraseP_cons_of_neg (by simp [hpa]), List.countP_cons, List.countP_cons, ih]

/-- Two members of a list that is pairwise-distinct under a key are
equal once their keys agree. -/
theorem eq_of_pairwise_key {α : Type} {β : Type} (f : α → β)
    {l : List α} (hp : l.Pairwise (fun a b => f a ≠ f b)) :
    ∀ {a b : α}, a ∈ l → b ∈ l → f a = f b → a = b := by
  induction l with
  | nil => intro a b ha; simp at ha
  | cons x t ih =>
    intro a b ha hb hf
    rcases List.pairwise_cons.mp hp with ⟨hx, ht⟩
    rcases List.mem_cons.mp ha with rfl | ha'
    · rcases List.mem_cons.mp hb with rfl | hb'
      · rfl
      · exact absurd hf (hx b hb')
    · rcases List.mem_cons.mp hb with rfl | hb'
      · exact absurd hf.symm (hx a ha')
      · exact ih ht ha' hb' hf

/-- `find?` over an append whose left part contains no match. -/
theorem find?_append_left_none {α : Type} (p : α → Bool) :
    ∀ l₁ l₂ : List α, l₁.find? p = none → (l₁ ++ l₂).find? p = l₂.find? p := by
  intro l₁ l₂ h
  induction l₁ with
  | nil => rfl
  | cons a t ih =>
    rw [List.find?_cons] at h
    by_cases hpa : p a = true
    · rw [hpa] at h; exact absurd h (by simp)
    · simp only [Bool.not_eq_true] at hpa
      rw [hpa] at h
      simp only [Bool.false_eq_true, if_false] at h
      rw [List.cons_append, List.find?_cons, hpa]
      simp only [Bool.false_eq_true, if_false]
      exact ih h

/-- `eraseP` over an append whose left part contains no match. -/
theorem eraseP_append_left_none {α : Type} (p : α → Bool) :
    ∀ l₁ l₂ : List α, l₁.find? p = none → (l₁ ++ l₂).eraseP p = l₁ ++ l₂.eraseP p := by
  intro l₁ l₂ h
  induction l₁ with
  | nil => rfl
  | cons a t ih =>
    rw [List.find?_cons] at h
    by_cases hpa : p a = true
    · rw [hpa] at h; exact absurd h (by simp)
    · simp only [Bool.not_eq_true] at hpa
      rw [hpa] at h
      simp only [Bool.false_eq_true, if_false] at h
      rw [List.cons_append, List.eraseP_cons_of_neg (by simp [hpa]), List.cons_append, ih h]

/-! ### Claim theorems -/

/-- C9: `validate_isbn x` fails if and only if `x` is null or its
length is not 13; the failure message is "ISBN must not be empty." for
null and "ISBN must be 13 characters long." for a wrong length; every
13-character string passes, digits or not. -/
theorem validate_isbn_spec : ∀ x : Option String,
    ((Book.validate_isbn x).1 = false ↔ x = none ∨ ∃ s, x = some s ∧ s.length ≠ 13) ∧
    (Book.validate_isbn none = (false, "ISBN must not be empty.")) ∧
    (∀ s, x = some s → s.length ≠ 13 →
      Book.validate_isbn x = (false, "ISBN must be 13 characters long.")) ∧
    (∀ s, x = some s → s.length = 13 → Book.validate_isbn x = (true, "")) := by
  intro x
  refine ⟨?_, rfl, ?_, ?_⟩
  · cases x with
    | none => simp [Book.validate_isbn]
    | some s =>
      by_cases h : s.length = 13 <;> simp [Book.validate_isbn, h]
  · rintro s rfl h
    simp [Book.validate_isbn, h]
  · rintro s rfl h
    simp [Book.validate_isbn, h]

/-- C8: `GET /books?status=available` returns exactly the books whose
count of active loans is strictly below `total_copies`; with no filter
the whole table is returned. -/
theorem view_avaiable_books_spec : ∀ (s : LibraryState) (b : Book),
    (b ∈ (view_avaiable_books s (some "available")).1 ↔
      b ∈ s.books ∧ (borrowedCount s b.id : Int) < b.total_copies) ∧
    (view_avaiable_books s none = (s.books, 200)) := by
  intro s b
  constructor
  · simp [view_avaiable_books, List.mem_filter]
  · simp [view_avaiable_books]

/-- Updating a book in place (the update never touches the `isbn`
column) commutes with the isbn lookup. -/
theorem find?_isbn_updateBook (books : List Book) (bid : Nat) (f : Book → Book)
    (hf : ∀ b, (f b).isbn = b.isbn) (i : String) :
    (updateBook books bid f).find? (fun b => b.isbn == i)
      = (books.find? (fun b => b.isbn == i)).map (fun b => if b.id == bid then f b else b) := by
  apply find?_map_pred
  intro a
  by_cases h : a.id == bid <;> simp [h, hf]

/-- C5: the borrow handler checks user, then book, then the per-pair
loan guard, then capacity, failing with exactly these messages and
codes, and succeeds in all remaining cases. -/
theorem borrow_book_error_order : ∀ (s : LibraryState) (isbn : String) (uid : Nat),
    (findUserById s (some uid) = none →
      borrow_book s (some isbn) (some uid) = (s, ⟨"User not found", 404⟩)) ∧
    (∀ user, findUserById s (some uid) = some user →
      findBookByIsbn s (some isbn) = none →
      borrow_book s (some isbn) (some uid) = (s, ⟨"Book not found", 404⟩)) ∧
    (∀ user book, findUserById s (some uid) = some user →
      findBookByIsbn s (some isbn) = some book →
      hasLoan s user.id book.id = true →
      borrow_book s (some isbn) (some uid) = (s, ⟨"Book is already borrowed by user.", 409⟩)) ∧
    (∀ user book, findUserById s (some uid) = some user →
      findBookByIsbn s (some isbn) = some book →
      hasLoan s user.id book.id = false →
      (borrowedCount s book.id : Int) ≥ book.total_copies →
      (borrow_book s (some isbn) (some uid)).2 = ⟨"The book is not available.", 409⟩) ∧
    (∀ user book, findUserById s (some uid) = some user →
      findBookByIsbn s (some isbn) = some book →
      hasLoan s user.id book.id = false →
      (borrowedCount s book.id : Int) < book.total_copies →
      (borrow_book s (some isbn) (some uid)).2 = ⟨"Book successfully borrowed.", 200⟩) := by
  intro s isbn uid
  refine ⟨?_, ?_, ?_, ?_, ?_⟩
  · intro hu
    unfold borrow_book
    rw [hu]
  · intro user hu hb
    unfold borrow_book
    rw [hu, hb]
  · intro user book hu hb hl
    unfold borrow_book
    rw [hu, hb]
    simp [hl]
  · intro user book hu hb hl hc
    unfold borrow_book
    rw [hu, hb]
    simp [hl, hc]
  · intro user book hu hb hl hc
    unfold borrow_book
    rw [hu, hb]
    simp [hl, not_le.mpr hc]

/-- C1: when the user and the book exist, the pair holds no loan and
the live loan count is below `total_copies`, borrowing creates the
`(user, book)` loan, decrements `total_copies` by exactly 1, sets the
status to "unavailable" iff the decremented value is 0 (otherwise the
status is untouched), and answers "Book successfully borrowed." with
HTTP 200. -/
theorem borrow_book_success (s : LibraryState) (isbn : String) (uid : Nat)
    (user : User) (book : Book)
    (hu : findUserById s (some uid) = some user)
    (hb : findBookByIsbn s (some isbn) = some book)
    (hl : hasLoan s user.id book.id = false)
    (hc : (borrowedCount s book.id : Int) < book.total_copies) :
    (borrow_book s (some isbn) (some uid)).2 = ⟨"Book successfully borrowed.", 200⟩ ∧
    (borrow_book s (some isbn) (some uid)).1.users = s.users ∧
    (borrow_book s (some isbn) (some uid)).1.borrowed_books
      = s.borrowed_books ++ [{ user_id := user.id, book_id := book.id }] ∧
    findBookByIsbn (borrow_book s (some isbn) (some uid)).1 (some isbn)
      = some { book with
               total_copies := book.total_copies - 1,
               status := if book.total_copies - 1 = 0 then "unavailable" else book.status } := by
  have hbody : borrow_book s (some isbn) (some uid)
      = ({ s with
            borrowed_books := s.borrowed_books ++ [{ user_id := user.id, book_id := book.id }],
            books := updateBook s.books book.id (fun b =>
              let b1 := { b with total_copies := b.total_copies - 1 }
              if b1.total_copies == (0 : Int) then { b1 with status := "unavailable" } else b1) },
         ⟨"Book successfully borrowed.", 200⟩) := by
    unfold borrow_book
    rw [hu, hb]
    simp [hl, not_le.mpr hc]
  refine ⟨by rw [hbody], by rw [hbody], by rw [hbody], ?_⟩
  rw [hbody]
  show (updateBook s.books book.id _).find? _ = _
  rw [find?_isbn_updateBook]
  · have hfind : s.books.find? (fun b => b.isbn == isbn) = some book := by
      simpa [findBookByIsbn] using hb
    rw [hfind]
    simp only [Option.map_some, beq_self_eq_true, if_pos]
    by_cases h0 : book.total_copies - 1 = 0 <;> simp [h0]
  · intro b
    by_cases h0 : b.total_copies - 1 = 0 <;> simp [h0]

/-- C2: the return handler fails 404 "Book not found." when the isbn
is unknown, then 404 "User not found." when the user id is unknown,
then 400 (not 404) "Book is not currently borrowed." when the pair
holds no loan; otherwise it deletes that loan, increments
`total_copies` by exactly 1, resets the status to "available" iff it
was "unavailable", and answers "Book successfully returned." 200. -/
theorem return_book_spec : ∀ (s : LibraryState) (isbn : String) (uid : Nat),
    (findBookByIsbn s (some isbn) = none →
      return_book s (some isbn) (some uid) = (s, ⟨"Book not found.", 404⟩)) ∧
    (∀ book, findBookByIsbn s (some isbn) = some book →
      findUserById s (some uid) = none →
      return_book s (some isbn) (some uid) = (s, ⟨"User not found.", 404⟩)) ∧
    (∀ book user, findBookByIsbn s (some isbn) = some book →
      findUserById s (some uid) = some user →
      s.borrowed_books.find? (fun l => l.book_id == book.id && l.user_id == user.id) = none →
      return_book s (some isbn) (some uid) = (s, ⟨"Book is not currently borrowed.", 400⟩)) ∧
    (∀ book user loan, findBookByIsbn s (some isbn) = some book →
      findUserById s (some uid) = some user →
      s.borrowed_books.find? (fun l => l.book_id == book.id && l.user_id == user.id)
        = some loan →
      (return_book s (some isbn) (some uid)).2 = ⟨"Book successfully returned.", 200⟩ ∧
      (return_book s (some isbn) (some uid)).1.users = s.users ∧
      (return_book s (some isbn) (some uid)).1.borrowed_books
        = s.borrowed_books.eraseP (fun l => l.book_id == book.id && l.user_id == user.id) ∧
      findBookByIsbn (return_book s (some isbn) (some uid)).1 (some isbn)
        = some { book with
                 total_copies := book.total_copies + 1,
                 status := if book.status = "unavailable" then "available"
                           else book.status }) := by
  intro s isbn uid
  refine ⟨?_, ?_, ?_, ?_⟩
  · intro hb
    unfold return_book
    rw [hb]
  · intro book hb hu
    unfold return_book
    rw [hb, hu]
  · intro book user hb hu hl
    unfold return_book
    rw [hb, hu]
    dsimp only
    rw [hl]
  · intro book user loan hb hu hl
    have hbody : return_book s (some isbn) (some uid)
        = ({ s with
              borrowed_books := s.borrowed_books.eraseP
                (fun l => l.book_id == book.id && l.user_id == user.id),
              books := updateBook s.books book.id (fun b =>
                let b1 := { b with total_copies := b.total_copies + 1 }
                if b1.status == "unavailable" then { b1 with status := "available" } else b1) },
           ⟨"Book successfully returned.", 200⟩) := by
      unfold return_book
      rw [hb, hu]
      dsimp only
      rw [hl]
    refine ⟨by rw [hbody], by rw [hbody], by rw [hbody], ?_⟩
    rw [hbody]
    show (updateBook s.books book.id _).find? _ = _
    rw [find?_isbn_updateBook]
    · have hfind : s.books.find? (fun b => b.isbn == isbn) = some book := by
        simpa [findBookByIsbn] using hb
      rw [hfind]
      simp only [Option.map_some, beq_self_eq_true, if_pos]
      by_cases h0 : book.status = "unavailable" <;> simp [h0]
    · intro b
      by_cases h0 : b.status = "unavailable" <;> simp [h0]

/-- C6 (amended): every failing return, and every failing borrow other
than the capacity branch, persists nothing; the capacity branch
("The book is not available.", 409) commits exactly one change — the
target book's status is set to "unavailable". -/
theorem failure_state_effects : ∀ (s : LibraryState) (isbn : Option String) (uid : Option Nat),
    ((return_book s isbn uid).2.status ≠ 200 → (return_book s isbn uid).1 = s) ∧
    ((borrow_book s isbn uid).2.status ≠ 200 →
      (borrow_book s isbn uid).2.message ≠ "The book is not available." →
      (borrow_book s isbn uid).1 = s) ∧
    ((borrow_book s isbn uid).2.message = "The book is not available." →
      ∃ book, findBookByIsbn s isbn = some book ∧
        (borrow_book s isbn uid).1 =
          { s with books := updateBook s.books book.id (fun b => { b with status := "unavailable" }) }) := by
  intro s isbn uid
  refine ⟨?_, ?_, ?_⟩
  · intro hfail
    cases hb : findBookByIsbn s isbn with
    | none => simp [return_book, hb]
    | some book =>
      cases hu : findUserById s uid with
      | none => simp [return_book, hb, hu]
      | some user =>
        cases hl : s.borrowed_books.find?
            (fun l => l.book_id == book.id && l.user_id == user.id) with
        | none => simp [return_book, hb, hu, hl]
        | some loan =>
          exact absurd (by simp [return_book, hb, hu, hl]) hfail
  · intro hfail hmsg
    cases hu : findUserById s uid with
    | none => simp [borrow_book, hu]
    | some user =>
      cases hb : findBookByIsbn s isbn with
      | none => simp [borrow_book, hu, hb]
      | some book =>
        by_cases hl : hasLoan s user.id book.id = true
        · simp [borrow_book, hu, hb, hl]
        · by_cases hc : (borrowedCount s book.id : Int) ≥ book.total_copies
          · exact absurd (by simp [borrow_book, hu, hb, hl, hc]) hmsg
          · exact absurd (by simp [borrow_book, hu, hb, hl, hc]) hfail
  · intro hmsg
    cases hu : findUserById s uid with
    | none => simp [borrow_book, hu] at hmsg
    | some user =>
      cases hb : findBookByIsbn s isbn with
      | none => simp [borrow_book, hu, hb] at hmsg
      | some book =>
        by_cases hl : hasLoan s user.id book.id = true
        · simp [borrow_book, hu, hb, hl] at hmsg
        · by_cases hc : (borrowedCount s book.id : Int) ≥ book.total_copies
          · refine ⟨book, rfl, ?_⟩
            simp [borrow_book, hu, hb, hl, hc]
          · simp [borrow_book, hu, hb, hl, hc] at hmsg

/-- The success branch of `borrow_book`, as one equation. -/
theorem borrow_book_success_eq (s : LibraryState) (isbn : String) (uid : Nat)
    (user : User) (book : Book)
    (hu : findUserById s (some uid) = some user)
    (hb : findBookByIsbn s (some isbn) = some book)
    (hl : hasLoan s user.id book.id = false)
    (hc : (borrowedCount s book.id : Int) < book.total_copies) :
    borrow_book s (some isbn) (some uid)
      = ({ s with
            borrowed_books := s.borrowed_books ++ [{ user_id := user.id, book_id := book.id }],
            books := updateBook s.books book.id (fun b =>
              let b1 := { b with total_copies := b.total_copies - 1 }
              if b1.total_copies == (0 : Int) then { b1 with status := "unavailable" } else b1) },
         ⟨"Book successfully borrowed.", 200⟩) := by
  unfold borrow_book
  rw [hu, hb]
  simp [hl, not_le.mpr hc]

/-- The success branch of `return_book`, as one equation. -/
theorem return_book_success_eq (s : LibraryState) (isbn : String) (uid : Nat)
    (book : Book) (user : User) (loan : BorrowedBooks)
    (hb : findBookByIsbn s (some isbn) = some book)
    (hu : findUserById s (some uid) = some user)
    (hl : s.borrowed_books.find? (fun l => l.book_id == book.id && l.user_id == user.id)
      = some loan) :
    return_book s (some isbn) (some uid)
      = ({ s with
            borrowed_books := s.borrowed_books.eraseP
              (fun l => l.book_id == book.id && l.user_id == user.id),
            books := updateBook s.books book.id (fun b =>
              let b1 := { b with total_copies := b.total_copies + 1 }
              if b1.status == "unavailable" then { b1 with status := "available" } else b1) },
         ⟨"Book successfully returned.", 200⟩) := by
  unfold return_book
  rw [hb]
  dsimp only
  rw [hu]
  dsimp only
  rw [hl]

/-- C4 (amended): when a borrow succeeds and is immediately followed
by a return of the same pair, `total_copies` is always restored to its
pre-borrow value, and `status` is restored provided the pre-borrow
status was "available" (an "unavailable" status with free capacity is
instead rewritten to "available" by the return). -/
theorem borrow_return_round_trip (s : LibraryState) (isbn : String) (uid : Nat)
    (user : User) (book : Book)
    (hu : findUserById s (some uid) = some user)
    (hb : findBookByIsbn s (some isbn) = some book)
    (hl : hasLoan s user.id book.id = false)
    (hc : (borrowedCount s book.id : Int) < book.total_copies) :
    (borrow_book s (some isbn) (some uid)).2.status = 200 ∧
    (return_book (borrow_book s (some isbn) (some uid)).1 (some isbn) (some uid)).2.status
      = 200 ∧
    ∃ book',
      findBookByIsbn
          (return_book (borrow_book s (some isbn) (some uid)).1 (some isbn) (some uid)).1
          (some isbn) = some book' ∧
      book'.total_copies = book.total_copies ∧
      (book.status = "available" → book'.status = book.status) := by
  have hbor := borrow_book_success_eq s isbn uid user book hu hb hl hc
  have hfind : s.books.find? (fun b => b.isbn == isbn) = some book := by
    simpa [findBookByIsbn] using hb
  -- the book as stored after the borrow
  set dec : Book → Book := fun b =>
    let b1 := { b with total_copies := b.total_copies - 1 }
    if b1.total_copies == (0 : Int) then { b1 with status := "unavailable" } else b1 with hdec
  have hdec_id : ∀ b : Book, (dec b).id = b.id := by
    intro b
    by_cases h0 : b.total_copies - 1 = 0 <;> simp [hdec, h0]
  have hdec_isbn : ∀ b : Book, (dec b).isbn = b.isbn := by
    intro b
    by_cases h0 : b.total_copies - 1 = 0 <;> simp [hdec, h0]
  set s1 := (borrow_book s (some isbn) (some uid)).1 with hs1def
  have hs1 : s1 = { s with
      borrowed_books := s.borrowed_books ++ [{ user_id := user.id, book_id := book.id }],
      books := updateBook s.books book.id dec } := by
    rw [hs1def, hbor]
  have hb1 : findBookByIsbn s1 (some isbn) = some (dec book) := by
    rw [hs1]
    show (updateBook s.books book.id dec).find? (fun b => b.isbn == isbn) = _
    rw [find?_isbn_updateBook _ _ _ hdec_isbn, hfind]
    simp
  have hu1 : findUserById s1 (some uid) = some user := by
    rw [hs1]
    exact hu
  have hnone : s.borrowed_books.find?
      (fun l => l.book_id == (dec book).id && l.user_id == user.id) = none := by
    rw [List.find?_eq_none]
    intro l hmem
    have hall := (List.any_eq_false).mp hl l hmem
    simp only [hdec_id, Bool.and_eq_true, beq_iff_eq, not_and] at hall ⊢
    intro h1 h2
    exact hall h2 h1
  have hl1 : s1.borrowed_books.find?
      (fun l => l.book_id == (dec book).id && l.user_id == user.id)
      = some { user_id := user.id, book_id := book.id } := by
    rw [hs1]
    show (s.borrowed_books ++ [_]).find? _ = _
    rw [find?_append_left_none _ _ _ hnone]
    simp [hdec_id]
  have hret := return_book_success_eq s1 isbn uid (dec book) user
    { user_id := user.id, book_id := book.id } hb1 hu1 hl1
  refine ⟨by rw [hbor], by rw [hret], ?_⟩
  -- the book as stored after the return
  set inc : Book → Book := fun b =>
    let b1 := { b with total_copies := b.total_copies + 1 }
    if b1.status == "unavailable" then { b1 with status := "available" } else b1 with hinc
  have hinc_isbn : ∀ b : Book, (inc b).isbn = b.isbn := by
    intro b
    by_cases h0 : b.status = "unavailable" <;> simp [hinc, h0]
  refine ⟨inc (dec book), ?_, ?_, ?_⟩
  · rw [hret]
    show (updateBook s1.books (dec book).id inc).find? (fun b => b.isbn == isbn) = _
    rw [find?_isbn_updateBook _ _ _ hinc_isbn]
    have : s1.books.find? (fun b => b.isbn == isbn) = some (dec book) := by
      simpa [findBookByIsbn] using hb1
    rw [this]
    simp
  · by_cases h0 : book.total_copies - 1 = 0
    · simp [hdec, hinc, h0]
      omega
    · simp [hdec, hinc, h0]
      by_cases hs2 : book.status = "unavailable" <;> simp [hs2]
  · intro hst
    by_cases h0 : book.total_copies - 1 = 0 <;> simp [hdec, hinc, h0, hst]

/-- C10: `add_book` fails exactly when one of the three validators
rejects its field or a book with the same isbn is already stored;
`author`, `status` and `total_copies` are never validated, so a book
with an empty author, an arbitrary status string and a negative
`total_copies` is persisted and returned with HTTP 201. -/
theorem add_book_validation_spec :
    (∀ (s : LibraryState) (req : AddBookRequest),
      ((add_book s req).2.isErr = true ↔
        (Book.validate_isbn req.isbn).1 = false ∨
        (Book.validate_title req.title).1 = false ∨
        (Book.validate_publication_year req.publication_year).1 = false ∨
        (findBookByIsbn s req.isbn).isSome = true)) ∧
    (add_book emptyState
        { isbn := some "1234567890123", title := some "T", author := "",
          publication_year := some 2000, status := some "soon", total_copies := some (-3) }
      = ({ emptyState with
            books := [{ id := 1, isbn := "1234567890123", title := "T", author := "",
                        publication_year := 2000, status := "soon", total_copies := -3 }],
            next_book_id := 2 },
         .ok { id := 1, isbn := "1234567890123", title := "T", author := "",
               publication_year := 2000, status := "soon", total_copies := -3 } 201)) := by
  constructor
  · intro s req
    cases hv1 : (Book.validate_isbn req.isbn).1
    · simp [add_book, hv1, ApiResult.isErr]
    · cases hv2 : (Book.validate_title req.title).1
      · simp [add_book, hv1, hv2, ApiResult.isErr]
      · cases hv3 : (Book.validate_publication_year req.publication_year).1
        · simp [add_book, hv1, hv2, hv3, ApiResult.isErr]
        · cases hf : findBookByIsbn s req.isbn
          · simp [add_book, hv1, hv2, hv3, hf, ApiResult.isErr]
          · simp [add_book, hv1, hv2, hv3, hf, ApiResult.isErr]
  · decide

/-! ### The unit-capacity status invariant -/

/-- Number of loan rows for a given book id. -/
def loanCount (loans : List BorrowedBooks) (bid : Nat) : Nat :=
  loans.countP (fun l => l.book_id == bid)

/-- Per-book invariant of unit-capacity runs: a book either has its
single copy on the shelf or on loan, with the status matching. -/
def BookOk (loans : List BorrowedBooks) (b : Book) : Prop :=
  (b.total_copies = 1 ∧ loanCount loans b.id = 0 ∧ b.status = "available") ∨
  (b.total_copies = 0 ∧ loanCount loans b.id = 1 ∧ b.status = "unavailable")

/-- Inductive invariant: per-book state, fresh and distinct book ids,
and loans that reference stored books. -/
def Inv (s : LibraryState) : Prop :=
  (∀ b ∈ s.books, b.id < s.next_book_id ∧ BookOk s.borrowed_books b) ∧
  s.books.Pairwise (fun a b => a.id ≠ b.id) ∧
  (∀ l ∈ s.borrowed_books, ∃ b ∈ s.books, b.id = l.book_id)

theorem inv_empty : Inv emptyState := by
  refine ⟨?_, ?_, ?_⟩ <;> simp [emptyState]

theorem mem_of_findBookByIsbn (s : LibraryState) (i : Option String) (b : Book)
    (h : findBookByIsbn s i = some b) : b ∈ s.books := by
  cases i with
  | none => simp [findBookByIsbn] at h
  | some x => exact List.mem_of_find?_eq_some h

theorem updateBook_entry_id (bid : Nat) (f : Book → Book) (hf : ∀ b, (f b).id = b.id)
    (b : Book) : (if b.id == bid then f b else b).id = b.id := by
  by_cases h : b.id == bid <;> simp [h, hf]

theorem pairwise_id_updateBook (books : List Book) (bid : Nat) (f : Book → Book)
    (hf : ∀ b : Book, (f b).id = b.id)
    (hp : books.Pairwise (fun a b => a.id ≠ b.id)) :
    (updateBook books bid f).Pairwise (fun a b => a.id ≠ b.id) := by
  unfold updateBook
  refine hp.map _ ?_
  intro a b hab
  rw [updateBook_entry_id bid f hf a, updateBook_entry_id bid f hf b]
  exact hab

theorem inv_add_user (s : LibraryState) (req : AddUserRequest) (h : Inv s) :
    Inv (add_user s req).1 := by
  unfold add_user
  cases hn : req.name with
  | none => exact h
  | some name =>
    cases he : req.email with
    | none => exact h
    | some email =>
      by_cases hdup : s.users.any (fun u => u.email == email) = true
      · simp only [hdup, if_pos]
        exact h
      · simp only [hdup, if_neg, Bool.false_eq_true, if_false]
        exact h

theorem inv_add_book (s : LibraryState) (req : AddBookRequest) (h : Inv s)
    (hcopies : req.total_copies = none ∨ req.total_copies = some 1)
    (hstatus : req.status = none ∨ req.status = some "available") :
    Inv (add_book s req).1 := by
  cases hv1 : (Book.validate_isbn req.isbn).1 with
  | false => simp only [add_book, hv1, Bool.not_false, if_pos]; exact h
  | true =>
  cases hv2 : (Book.validate_title req.title).1 with
  | false =>
    simp only [add_book, hv1, hv2, Bool.not_false, Bool.not_true, Bool.false_eq_true, if_false,
      if_pos]
    exact h
  | true =>
  cases hv3 : (Book.validate_publication_year req.publication_year).1 with
  | false =>
    simp only [add_book, hv1, hv2, hv3, Bool.not_false, Bool.not_true, Bool.false_eq_true,
      if_false, if_pos]
    exact h
  | true =>
  cases hf : findBookByIsbn s req.isbn with
  | some b =>
    simp only [add_book, hv1, hv2, hv3, hf, Bool.not_true, Bool.false_eq_true, if_false]
    exact h
  | none =>
    simp only [add_book, hv1, hv2, hv3, hf, Bool.not_true, Bool.false_eq_true, if_false]
    have hcop : req.total_copies.getD 1 = 1 := by
      rcases hcopies with hc | hc <;> rw [hc] <;> rfl
    have hst : req.status.getD "available" = "available" := by
      rcases hstatus with hc | hc <;> rw [hc] <;> rfl
    obtain ⟨h1, h2, h3⟩ := h
    refine ⟨?_, ?_, ?_⟩
    · intro b hb
      rcases List.mem_append.mp hb with hold | hnew
      · obtain ⟨hid, hok⟩ := h1 b hold
        exact ⟨Nat.lt_succ_of_lt hid, hok⟩
      · rcases List.mem_singleton.mp hnew with rfl
        refine ⟨Nat.lt_succ_self _, Or.inl ⟨hcop, ?_, hst⟩⟩
        rw [loanCount, List.countP_eq_zero]
        intro l hl
        obtain ⟨b', hb', hbid⟩ := h3 l hl
        have := (h1 b' hb').1
        simp only [beq_iff_eq]
        omega
    · rw [List.pairwise_append]
      refine ⟨h2, List.pairwise_singleton _ _, ?_⟩
      intro a ha b hb
      rcases List.mem_singleton.mp hb with rfl
      have := (h1 a ha).1
      simp only []
      omega
    · intro l hl
      obtain ⟨b', hb', hbid⟩ := h3 l hl
      exact ⟨b', List.mem_append_left _ hb', hbid⟩

theorem inv_borrow (s : LibraryState) (isbn : Option String) (uid : Option Nat)
    (h : Inv s) : Inv (borrow_book s isbn uid).1 := by
  cases hu : findUserById s uid with
  | none => simp only [borrow_book, hu]; exact h
  | some user =>
  cases hb : findBookByIsbn s isbn with
  | none => simp [borrow_book, hu, hb]; exact h
  | some book =>
  by_cases hl : hasLoan s user.id book.id = true
  · simp [borrow_book, hu, hb, hl]; exact h
  · have hmem : book ∈ s.books := mem_of_findBookByIsbn s isbn book hb
    obtain ⟨h1, h2, h3⟩ := h
    have hok := (h1 book hmem).2
    have hcnteq : borrowedCount s book.id = loanCount s.borrowed_books book.id := rfl
    have hdec_id : ∀ b : Book,
        ((fun b : Book =>
          let b1 := { b with total_copies := b.total_copies - 1 }
          if b1.total_copies == (0 : Int) then { b1 with status := "unavailable" } else b1) b).id
          = b.id := by
      intro b
      by_cases h0 : (b.total_copies - 1 == (0 : Int)) = true <;> simp [h0]
    by_cases hcap : (borrowedCount s book.id : Int) ≥ book.total_copies
    · -- defensive branch: only the status column of the found book changes
      have hres : (borrow_book s isbn uid).1
          = { s with books := updateBook s.books book.id (fun b => { b with status := "unavailable" }) } := by
        simp [borrow_book, hu, hb, hl, hcap]
      rw [hres]
      have hok2 : book.total_copies = 0 ∧ loanCount s.borrowed_books book.id = 1 ∧
          book.status = "unavailable" := by
        rcases hok with ⟨hc1, hc2, _⟩ | hok2
        · exfalso
          rw [hcnteq, hc2, hc1] at hcap
          omega
        · exact hok2
      refine ⟨?_, ?_, ?_⟩
      · intro b' hb'
        obtain ⟨b, hbmem, rfl⟩ := List.mem_map.mp hb'
        by_cases hid : (b.id == book.id) = true
        · have hbeq : b = book := eq_of_pairwise_key Book.id h2 hbmem hmem (beq_iff_eq.mp hid)
          subst hbeq
          rw [if_pos hid]
          exact ⟨(h1 b hbmem).1, Or.inr ⟨hok2.1, hok2.2.1, rfl⟩⟩
        · rw [if_neg hid]
          exact h1 b hbmem
      · exact pairwise_id_updateBook s.books book.id
          (fun b => { b with status := "unavailable" }) (fun b => rfl) h2
      · intro l hl2
        obtain ⟨b', hb', hbid⟩ := h3 l hl2
        refine ⟨_, List.mem_map_of_mem _ hb', ?_⟩
        rw [updateBook_entry_id book.id (fun b => { b with status := "unavailable" })
          (fun b => rfl) b']
        exact hbid
    · -- success branch
      have hcap' : (borrowedCount s book.id : Int) < book.total_copies := lt_of_not_ge hcap
      have hres : (borrow_book s isbn uid).1
          = { s with
                borrowed_books := s.borrowed_books ++ [{ user_id := user.id, book_id := book.id }],
                books := updateBook s.books book.id (fun b => let b1 := { b with total_copies := b.total_copies - 1 }; if b1.total_copies == (0 : Int) then { b1 with status := "unavailable" } else b1) } := by
        simp [borrow_book, hu, hb, hl, hcap]
      rw [hres]
      have hok1 : book.total_copies = 1 ∧ loanCount s.borrowed_books book.id = 0 ∧
          book.status = "available" := by
        rcases hok with hok1 | ⟨hc1, hc2, _⟩
        · exact hok1
        · exfalso
          rw [hcnteq, hc2, hc1] at hcap'
          omega
      have hcnt : ∀ bid : Nat,
          loanCount (s.borrowed_books ++ [{ user_id := user.id, book_id := book.id }]) bid
            = loanCount s.borrowed_books bid + (if (book.id == bid) = true then 1 else 0) := by
        intro bid
        simp [loanCount, List.countP_append, List.countP_cons]
      refine ⟨?_, ?_, ?_⟩
      · intro b' hb'
        obtain ⟨b, hbmem, rfl⟩ := List.mem_map.mp hb'
        by_cases hid : (b.id == book.id) = true
        · have hbeq : b = book := eq_of_pairwise_key Book.id h2 hbmem hmem (beq_iff_eq.mp hid)
          subst hbeq
          rw [if_pos hid]
          refine ⟨?_, Or.inr ⟨?_, ?_, ?_⟩⟩
          · rw [hdec_id b]
            exact (h1 b hbmem).1
          · simp [hok1.1]
          · rw [hdec_id b, hcnt b.id, hok1.2.1]
            simp
          · simp [hok1.1]
        · rw [if_neg hid]
          refine ⟨(h1 b hbmem).1, ?_⟩
          have hne : book.id ≠ b.id := by
            intro hx
            exact hid (beq_iff_eq.mpr hx.symm)
          have hsame : loanCount (s.borrowed_books
              ++ [{ user_id := user.id, book_id := book.id }]) b.id
              = loanCount s.borrowed_books b.id := by
            rw [hcnt b.id, if_neg]
            · omega
            · simp [hne]
          unfold BookOk
          rw [hsame]
          exact (h1 b hbmem).2
      · exact pairwise_id_updateBook s.books book.id _ hdec_id h2
      · intro l hl2
        rcases List.mem_append.mp hl2 with hold | hnew
        · obtain ⟨b', hb', hbid⟩ := h3 l hold
          refine ⟨_, List.mem_map_of_mem _ hb', ?_⟩
          rw [updateBook_entry_id book.id _ hdec_id b']
          exact hbid
        · rcases List.mem_singleton.mp hnew with rfl
          refine ⟨_, List.mem_map_of_mem _ hmem, ?_⟩
          rw [updateBook_entry_id book.id _ hdec_id book]

theorem inv_return (s : LibraryState) (isbn : Option String) (uid : Option Nat)
    (h : Inv s) : Inv (return_book s isbn uid).1 := by
  cases hb : findBookByIsbn s isbn with
  | none => simp only [return_book, hb]; exact h
  | some book =>
  cases hu : findUserById s uid with
  | none => simp [return_book, hb, hu]; exact h
  | some user =>
  cases hl : s.borrowed_books.find? (fun l => l.book_id == book.id && l.user_id == user.id) with
  | none => simp [return_book, hb, hu, hl]; exact h
  | some loan =>
  have hmem : book ∈ s.books := mem_of_findBookByIsbn s isbn book hb
  obtain ⟨h1, h2, h3⟩ := h
  have hok := (h1 book hmem).2
  have hinc_id : ∀ b : Book,
      ((fun b : Book =>
        let b1 := { b with total_copies := b.total_copies + 1 }
        if b1.status == "unavailable" then { b1 with status := "available" } else b1) b).id
        = b.id := by
    intro b
    by_cases h0 : (b.status == "unavailable") = true <;> simp [h0]
  have hres : (return_book s isbn uid).1
      = { s with
            borrowed_books := s.borrowed_books.eraseP
              (fun l => l.book_id == book.id && l.user_id == user.id),
            books := updateBook s.books book.id (fun b => let b1 := { b with total_copies := b.total_copies + 1 }; if b1.status == "unavailable" then { b1 with status := "available" } else b1) } := by
    simp [return_book, hb, hu, hl]
  rw [hres]
  have hloanP : (loan.book_id == book.id && loan.user_id == user.id) = true := by
    have h0 := List.find?_some
      (p := fun l : BorrowedBooks => l.book_id == book.id && l.user_id == user.id) hl
    exact h0
  have hloanmem : loan ∈ s.borrowed_books := List.mem_of_find?_eq_some hl
  have hcge : 1 ≤ loanCount s.borrowed_books book.id := by
    have : 0 < s.borrowed_books.countP (fun l => l.book_id == book.id) := by
      refine List.countP_pos_iff.mpr ⟨loan, hloanmem, ?_⟩
      exact (Bool.and_eq_true_iff.mp hloanP).1
    exact this
  have hok2 : book.total_copies = 0 ∧ loanCount s.borrowed_books book.id = 1 ∧
      book.status = "unavailable" := by
    rcases hok with ⟨_, hc2, _⟩ | hok2
    · exfalso
      rw [hc2] at hcge
      omega
    · exact hok2
  have hzero : loanCount (s.borrowed_books.eraseP
      (fun l => l.book_id == book.id && l.user_id == user.id)) book.id = 0 := by
    refine countP_eraseP_unique _ _ ?_ s.borrowed_books hok2.2.1 ?_
    · intro a ha
      exact (Bool.and_eq_true_iff.mp ha).1
    · rw [hl]
      rfl
  have hkeep : ∀ bid : Nat, bid ≠ book.id →
      loanCount (s.borrowed_books.eraseP
        (fun l => l.book_id == book.id && l.user_id == user.id)) bid
        = loanCount s.borrowed_books bid := by
    intro bid hne
    refine countP_eraseP_disjoint _ _ ?_ s.borrowed_books
    intro a ha
    have h1a : a.book_id = book.id := by
      have := (Bool.and_eq_true_iff.mp ha).1
      exact beq_iff_eq.mp this
    simp [h1a]
    omega
  refine ⟨?_, ?_, ?_⟩
  · intro b' hb'
    obtain ⟨b, hbmem, rfl⟩ := List.mem_map.mp hb'
    by_cases hid : (b.id == book.id) = true
    · have hbeq : b = book := eq_of_pairwise_key Book.id h2 hbmem hmem (beq_iff_eq.mp hid)
      subst hbeq
      rw [if_pos hid]
      refine ⟨?_, Or.inl ⟨?_, ?_, ?_⟩⟩
      · rw [hinc_id b]
        exact (h1 b hbmem).1
      · simp [hok2.1, hok2.2.2]
      · rw [hinc_id b]
        exact hzero
      · simp [hok2.1, hok2.2.2]
    · rw [if_neg hid]
      refine ⟨(h1 b hbmem).1, ?_⟩
      have hne : b.id ≠ book.id := fun hx => hid (beq_iff_eq.mpr hx)
      unfold BookOk
      rw [hkeep b.id hne]
      exact (h1 b hbmem).2
  · exact pairwise_id_updateBook s.books book.id _ hinc_id h2
  · intro l hl2
    have hold : l ∈ s.borrowed_books := (List.eraseP_sublist _).subset hl2
    obtain ⟨b', hb', hbid⟩ := h3 l hold
    refine ⟨_, List.mem_map_of_mem _ hb', ?_⟩
    rw [updateBook_entry_id book.id _ hinc_id b']
    exact hbid

theorem reachableUnit_inv : ∀ s : LibraryState, ReachableUnit s → Inv s := by
  intro s h
  induction h with
  | init => exact inv_empty
  | add_book s req _ hc hst ih => exact inv_add_book s req ih hc hst
  | add_user s req _ ih => exact inv_add_user s req ih
  | borrow s i u _ ih => exact inv_borrow s i u ih
  | ret s i u _ ih => exact inv_return s i u ih

/-- C3 (amended): in every state reached from the empty store by runs
whose `POST /books` requests all leave `total_copies` and `status` at
their defaults (1 and "available"), a stored book has status
"unavailable" exactly when its `total_copies` is 0.  (Unrestricted
`add_book` input, or capacities above 1 via the defensive borrow
branch, break the equivalence.) -/
theorem status_iff_zero_copies_unit (s : LibraryState) (h : ReachableUnit s) :
    ∀ b ∈ s.books, (b.status = "unavailable" ↔ b.total_copies = 0) := by
  intro b hb
  have hinv := reachableUnit_inv s h
  rcases (hinv.1 b hb).2 with ⟨hc, _, hs⟩ | ⟨hc, _, hs⟩
  · rw [hs, hc]
    simp
  · rw [hs, hc]
    simp

/-! ### Concrete fixtures for witnesses and counterexamples -/

/-- A `POST /books` body with all defaults (capacity 1, status
"available"). -/
def wBookReq : AddBookRequest :=
  { isbn := some "1234567890123", title := some "T", author := "A",
    publication_year := some 2000, status := none, total_copies := none }

/-- A `POST /books` body asking for zero copies (never validated). -/
def zeroReq : AddBookRequest :=
  { isbn := some "0000000000000", title := some "T", author := "A",
    publication_year := some 2000, status := none, total_copies := some 0 }

/-- A `POST /books` body with an arbitrary status and five copies. -/
def unavailReq : AddBookRequest :=
  { isbn := some "9999999999999", title := some "T", author := "A",
    publication_year := some 2000, status := some "unavailable", total_copies := some 5 }

def userReqA : AddUserRequest := { name := some "a", email := some "a@x" }

def userReqB : AddUserRequest := { name := some "b", email := some "b@x" }

/-- Fresh store, one default-capacity book. -/
def wState : LibraryState := (add_book emptyState wBookReq).1

/-- The book stored by `wState`. -/
def wBook : Book :=
  { id := 1, isbn := "1234567890123", title := "T", author := "A",
    publication_year := 2000, status := "available", total_copies := 1 }

/-- The user stored first in the two-user runs. -/
def wUser1 : User := { id := 1, name := "a", email := "a@x" }

/-- Fresh store, one zero-copy book created through the unvalidated
`total_copies` field, plus one user. -/
def zeroState : LibraryState := (add_book (add_user emptyState userReqA).1 zeroReq).1

/-- The zero-copy book as stored by `zeroState`: zero copies yet
status "available". -/
def zeroBook : Book :=
  { id := 1, isbn := "0000000000000", title := "T", author := "A",
    publication_year := 2000, status := "available", total_copies := 0 }

/-- Two users and one unit-capacity book, reached from the empty
store. -/
def twoUserState : LibraryState :=
  (add_book (add_user (add_user emptyState userReqA).1 userReqB).1 wBookReq).1

/-- One user and one five-copy book whose stored status is the
unvalidated string "unavailable". -/
def unavailState : LibraryState := (add_book (add_user emptyState userReqA).1 unavailReq).1

/-- C3 (counterexample): `zeroState` is reachable by the operations of
the claim, yet its book has `total_copies = 0` with status
"available", refuting the unrestricted invariant. -/
theorem status_iff_zero_copies_cex :
    Reachable zeroState ∧ zeroBook ∈ zeroState.books ∧
    ¬(zeroBook.status = "unavailable" ↔ zeroBook.total_copies = 0) := by
  refine ⟨?_, by decide, by decide⟩
  exact Reachable.add_book _ zeroReq (Reachable.add_user _ userReqA Reachable.init)

/-- C3 (witness): the restricted invariant theorem applied to the
concrete reachable one-book store. -/
theorem status_iff_zero_copies_unit_witness :
    ReachableUnit wState ∧ wBook ∈ wState.books ∧
    (wBook.status = "unavailable" ↔ wBook.total_copies = 0) := by
  have hr : ReachableUnit wState :=
    ReachableUnit.add_book emptyState wBookReq ReachableUnit.init (Or.inl rfl) (Or.inl rfl)
  have hm : wBook ∈ wState.books := by decide
  exact ⟨hr, hm, status_iff_zero_copies_unit wState hr wBook hm⟩

/-- C7 (counterexample): a sequential run — add a user, add a book
with `total_copies = 0`, borrow — reaches the defensive capacity
branch with no data race or external mutation involved. -/
theorem defensive_branch_reached_cex :
    Reachable zeroState ∧
    (borrow_book zeroState (some "0000000000000") (some 1)).2
      = ⟨"The book is not available.", 409⟩ := by
  refine ⟨?_, by decide⟩
  exact Reachable.add_book _ zeroReq (Reachable.add_user _ userReqA Reachable.init)

/-- C7 (amended): the defensive Conflict branch is reachable in purely
sequential execution from the empty store: with one unit-capacity book
and two users, the first borrow succeeds and the second borrow takes
the branch, failing 409 "The book is not available.". -/
theorem defensive_branch_reachable_sequentially :
    Reachable (borrow_book twoUserState (some "1234567890123") (some 1)).1 ∧
    (borrow_book twoUserState (some "1234567890123") (some 1)).2
      = ⟨"Book successfully borrowed.", 200⟩ ∧
    (borrow_book (borrow_book twoUserState (some "1234567890123") (some 1)).1
        (some "1234567890123") (some 2)).2
      = ⟨"The book is not available.", 409⟩ := by
  refine ⟨?_, by decide, by decide⟩
  exact Reachable.borrow _ _ _ (Reachable.add_book _ wBookReq
    (Reachable.add_user _ userReqB (Reachable.add_user _ userReqA Reachable.init)))

/-- C6 (counterexample): a borrow that fails with 409 "The book is not
available." nevertheless commits a state change (the book's status
flips to "unavailable"), refuting the unrestricted all-or-nothing
claim. -/
theorem failure_state_effects_cex :
    (borrow_book zeroState (some "0000000000000") (some 1)).2.status = 409 ∧
    (borrow_book zeroState (some "0000000000000") (some 1)).1 ≠ zeroState := by
  decide

/-- C4 (counterexample): a book stored (unvalidated) with status
"unavailable" and five copies: borrow succeeds, the immediate return
succeeds, yet the status ends as "available", not the pre-borrow
"unavailable" — the round trip does not restore `status`. -/
theorem borrow_return_round_trip_cex :
    (borrow_book unavailState (some "9999999999999") (some 1)).2.status = 200 ∧
    (return_book (borrow_book unavailState (some "9999999999999") (some 1)).1
        (some "9999999999999") (some 1)).2.status = 200 ∧
    (findBookByIsbn unavailState (some "9999999999999")).map Book.status
      = some "unavailable" ∧
    (findBookByIsbn
        (return_book (borrow_book unavailState (some "9999999999999") (some 1)).1
          (some "9999999999999") (some 1)).1
        (some "9999999999999")).map Book.status = some "available" := by
  decide

/-- C1 (witness): the borrow success theorem applied to the concrete
two-user, one-book store. -/
theorem borrow_book_success_witness :
    findUserById twoUserState (some 1) = some wUser1 ∧
    findBookByIsbn twoUserState (some "1234567890123") = some wBook ∧
    hasLoan twoUserState wUser1.id wBook.id = false ∧
    (borrowedCount twoUserState wBook.id : Int) < wBook.total_copies ∧
    ((borrow_book twoUserState (some "1234567890123") (some 1)).2
        = ⟨"Book successfully borrowed.", 200⟩ ∧
      (borrow_book twoUserState (some "1234567890123") (some 1)).1.users
        = twoUserState.users ∧
      (borrow_book twoUserState (some "1234567890123") (some 1)).1.borrowed_books
        = twoUserState.borrowed_books ++ [{ user_id := wUser1.id, book_id := wBook.id }] ∧
      findBookByIsbn (borrow_book twoUserState (some "1234567890123") (some 1)).1
          (some "1234567890123")
        = some { wBook with
                 total_copies := wBook.total_copies - 1,
                 status := if wBook.total_copies - 1 = 0 then "unavailable"
                           else wBook.status }) :=
  ⟨by decide, by decide, by decide, by decide,
   borrow_book_success twoUserState "1234567890123" 1 wUser1 wBook
     (by decide) (by decide) (by decide) (by decide)⟩

/-- C4 (witness): the round-trip theorem applied to the concrete
two-user, one-book store. -/
theorem borrow_return_round_trip_witness :
    findUserById twoUserState (some 1) = some wUser1 ∧
    findBookByIsbn twoUserState (some "1234567890123") = some wBook ∧
    hasLoan twoUserState wUser1.id wBook.id = false ∧
    (borrowedCount twoUserState wBook.id : Int) < wBook.total_copies ∧
    ((borrow_book twoUserState (some "1234567890123") (some 1)).2.status = 200 ∧
      (return_book (borrow_book twoUserState (some "1234567890123") (some 1)).1
          (some "1234567890123") (some 1)).2.status = 200 ∧
      ∃ book',
        findBookByIsbn
            (return_book (borrow_book twoUserState (some "1234567890123") (some 1)).1
              (some "1234567890123") (some 1)).1 (some "1234567890123") = some book' ∧
        book'.total_copies = wBook.total_copies ∧
        (wBook.status = "available" → book'.status = wBook.status)) :=
  ⟨by decide, by decide, by decide, by decide,
   borrow_return_round_trip twoUserState "1234567890123" 1 wUser1 wBook
     (by decide) (by decide) (by decide) (by decide)⟩

end LMS
